import Mathlib

/-!
A shallow embedding of the library indexing and reconciliation engine of
src/src/db.rs (struct Database and its impl), together with theorems that
settle the frozen claims about it.

Modelling conventions:
  * The sqlite database state is a `DB` record holding the rows of the
    `library`, `track` and `playlist_tracks` tables as lists, plus the next
    rowid the `track` table will assign.
  * Each SQL statement executed by the source is translated to a function on
    `DB` according to its relational meaning.  Two statements of the source
    are syntactically malformed SQL and therefore fail at prepare time; they
    are modelled as failing (see `scan_library` below).
  * The filesystem walk (walkdir) is modelled by a list of `Entry` values:
    the iterator items the `for entry in WalkDir::new(..)` loop consumes.
  * The taglib metadata extractor is an oracle `String → Option Extracted`
    (`none` models `File::new` failing or `file.tag()` / `file.audioproperties()`
    failing, i.e. "not readable media").
  * Storage faults during the track INSERT loop are modelled by an oracle
    `insertFail : String → Bool` saying whether executing the prepared INSERT
    for a given path fails (constraint violation or I/O error).
-/

/-- Row of the `library` table (source struct `Library`, db.rs lines 16-20). -/
structure LibraryRow where
  id : Nat
  path : String
  name : String
deriving Repr, DecidableEq

/-- Row of the `track` table (source struct `Track`, db.rs lines 37-53). -/
structure TrackRow where
  id : Nat
  library_id : Nat
  path : String
  title : Option String
  artist : Option String
  album : Option String
  comment : Option String
  genre : Option String
  year : Option Int
  track : Option Int
  length : Int
  bitrate : Int
  samplerate : Int
  rating : Option Int
deriving Repr, DecidableEq

/-- Modelled from the spec: the repository's schema file `create.sql` is not
under src/ (db.rs line 336 loads it), so the `playlist_tracks` table is
modelled from the spec's PlaylistMembership description: rows referencing a
`Track.id`.  The source (db.rs lines 184-191) deletes from it by `track_id`. -/
structure MembershipRow where
  playlist_id : Nat
  track_id : Nat
deriving Repr, DecidableEq

/-- The persistent store: the three tables plus the rowid counter of `track`. -/
structure DB where
  libraries : List LibraryRow
  tracks : List TrackRow
  playlist_tracks : List MembershipRow
  next_track_id : Nat
deriving Repr, DecidableEq

/-- Source `Library::path` (db.rs lines 24-30): returns `None` for the
literal stored string "NONE", else `Some` of the stored string. -/
def Library.path (l : LibraryRow) : Option String :=
  if l.path = "NONE" then none else some l.path

/-- Source `Library::name` (db.rs lines 32-34). -/
def Library.name (l : LibraryRow) : String := l.name

/-- Source enum `TrackField` (db.rs lines 74-78). -/
inductive TrackField where
  | Path | Title | Artist | Album | Comment | Genre | Year
  | Track | Length | Bitrate | Samplerate | Rating
deriving Repr, DecidableEq

/-- Source `Track::get_field_as_string` (db.rs lines 56-71).  Note that the
source maps `TrackField::Track` to `self.year` (line 65), not `self.track`. -/
def Track.get_field_as_string (t : TrackRow) (field : TrackField) : String :=
  match field with
  | TrackField.Path       => t.path
  | TrackField.Title      => t.title.getD ""
  | TrackField.Artist     => t.artist.getD ""
  | TrackField.Album      => t.album.getD ""
  | TrackField.Comment    => t.comment.getD ""
  | TrackField.Genre      => t.genre.getD ""
  | TrackField.Year       => (t.year.map (fun y => toString y)).getD ""
  | TrackField.Track      => (t.year.map (fun t => toString t)).getD ""
  | TrackField.Length     => toString t.length
  | TrackField.Bitrate    => toString t.bitrate
  | TrackField.Samplerate => toString t.samplerate
  | TrackField.Rating     => toString (t.rating.getD (-1))

/-- Source accessor `Track::genre` (db.rs line 86): the body reads
`self.title.as_deref()`, i.e. it returns the title field. -/
def Track.genre (t : TrackRow) : Option String := t.title

/-- Source accessor `Track::title` (db.rs line 82). -/
def Track.title (t : TrackRow) : Option String := t.title

/-- Source accessor `Track::year` (db.rs line 87). -/
def Track.year (t : TrackRow) : Option Int := t.year

/-- Source `Database::dump_all_tracks` (db.rs lines 298-325): SELECT * FROM
track, materialised in row order. -/
def dump_all_tracks (db : DB) : List TrackRow := db.tracks

/-- Concrete sample track used to exhibit the C8 behaviour: its genre field
and title field differ, and its year and track-number fields differ. -/
def sampleTrack : TrackRow where
  id := 1
  library_id := 1
  path := "p"
  title := some "SongTitle"
  artist := none
  album := none
  comment := none
  genre := some "Jazz"
  year := some 1999
  track := some 7
  length := 10
  bitrate := 128
  samplerate := 44100
  rating := none

/-- CLAIM C8: the public accessor `genre()` returns the track's title field,
and `get_field_as_string(TrackField::Track)` renders the year field as a
string (empty when absent) rather than the track number.  The final two
conjuncts exhibit a concrete track on which the returned values differ from
the genre field and from the track-number rendering. -/
theorem genre_returns_title_and_track_field_renders_year :
    (∀ t : TrackRow, Track.genre t = t.title ∧
      Track.get_field_as_string t TrackField.Track =
        (t.year.map (fun y => toString y)).getD "" ∧
      Track.get_field_as_string t TrackField.Track =
        Track.get_field_as_string t TrackField.Year) ∧
    Track.genre sampleTrack = some "SongTitle" ∧
    Track.genre sampleTrack ≠ sampleTrack.genre ∧
    Track.get_field_as_string sampleTrack TrackField.Track = "1999" ∧
    sampleTrack.track = some 7 := by
  refine ⟨fun t => ⟨rfl, rfl, rfl⟩, rfl, by decide, by decide, rfl⟩

/-!
Filesystem walk model (db.rs lines 201-217).

The loop `for entry in WalkDir::new(&library.path).follow_links(true)`
consumes an iterator of `Result<DirEntry, walkdir::Error>` items.  walkdir
yields an `Err` item both for errors on the root and for errors on interior
entries (for example a broken symbolic link encountered while following
links, or a directory that cannot be read).  We record with `atRoot` whether
the error concerns the root itself; the source code never inspects this (it
applies `?` to every entry), which is exactly what claim C4 is about.

For an `Ok` entry the source checks `entry.file_type().is_file()` and then
runs `entry.into_path().canonicalize().unwrap().into_os_string().into_string()`.
`CanonOutcome` models that chain on a file entry:
  * `CanonOutcome.ok s`  - canonicalize succeeded and the path is valid UTF-8;
  * `CanonOutcome.notUtf8` - canonicalize succeeded but the path is not valid
    UTF-8, so `into_string()` returns `Err` and the `if let Ok(file)` silently
    skips the entry;
  * `CanonOutcome.ioErr` - canonicalize returned `Err`, on which the source's
    `.unwrap()` panics, aborting the scan.
-/

inductive CanonOutcome where
  | ok (s : String)
  | notUtf8
  | ioErr
deriving Repr, DecidableEq

inductive Entry where
  | ok (isFile : Bool) (canon : CanonOutcome)
  | err (atRoot : Bool)
deriving Repr, DecidableEq

/-- Result of the path-collection loop: the deduplicated path list, or the
walk error propagated by `let entry = entry?;`, or a panic from
`canonicalize().unwrap()`. -/
inductive WalkOutcome where
  | ok (paths : List String)
  | walkErr
  | panicked
deriving Repr, DecidableEq

/-- The body of the collection loop of db.rs lines 204-217, with `acc` the
`new_tracks` vector accumulated so far (`new_tracks.contains` gives the
linear-scan deduplication of line 214). -/
def collectPathsAux (acc : List String) : List Entry → WalkOutcome
  | [] => WalkOutcome.ok acc
  | Entry.err _ :: _ => WalkOutcome.walkErr
  | Entry.ok isFile canon :: rest =>
    if isFile then
      match canon with
      | CanonOutcome.ioErr => WalkOutcome.panicked
      | CanonOutcome.notUtf8 => collectPathsAux acc rest
      | CanonOutcome.ok s =>
        if acc.contains s then collectPathsAux acc rest
        else collectPathsAux (acc ++ [s]) rest
    else collectPathsAux acc rest

/-- Path collection over the whole walk, starting from the empty
`new_tracks` vector (db.rs line 204). -/
def collectPaths (entries : List Entry) : WalkOutcome :=
  collectPathsAux [] entries

/-!
Metadata extraction and the track INSERT loop (db.rs lines 266-293).
-/

/-- Data the taglib extractor produces for a readable media file: the tag
fields and the audio properties passed as INSERT parameters ?3-?12. -/
structure Extracted where
  title : Option String
  artist : Option String
  album : Option String
  comment : Option String
  genre : Option String
  year : Option Int
  track : Option Int
  length : Int
  bitrate : Int
  samplerate : Int
deriving Repr, DecidableEq

/-- The track row produced by one execution of the prepared INSERT of db.rs
lines 266-269 with parameters from db.rs lines 276-290: the store assigns
the rowid `id`; `rating` is the `initial_rating` of line 274, always NULL. -/
def mkTrack (id : Nat) (library_id : Nat) (path : String) (m : Extracted) : TrackRow where
  id := id
  library_id := library_id
  path := path
  title := m.title
  artist := m.artist
  album := m.album
  comment := m.comment
  genre := m.genre
  year := m.year
  track := m.track
  length := m.length
  bitrate := m.bitrate
  samplerate := m.samplerate
  rating := none

/-- Outcome of `scan_library`: `ok removed` models `Ok(res)`; `sqliteErr`
models `Err(DatabaseError::SqliteError(..))`; `walkErr` models
`Err(DatabaseError::WalkDirError(..))`; `panicked` models the process
aborting on a `canonicalize().unwrap()` failure. -/
inductive ScanOutcome where
  | ok (removed : List String)
  | sqliteErr
  | walkErr
  | panicked
deriving Repr, DecidableEq

/-- The full-rescan wipe transaction of db.rs lines 181-199: one transaction
deletes from `playlist_tracks` every membership whose track belongs to the
library being scanned, and then deletes every track of that library.
Modelled from the spec: the schema file `create.sql` is not under src/, so
the column the membership-delete subquery selects from `track` is modelled
per the spec's data model (memberships reference `Track.id`): the statement
removes the memberships of the library's tracks. -/
def libTrackIds (db : DB) (lib : LibraryRow) : List Nat :=
  (db.tracks.filter (fun t => t.library_id == lib.id)).map (fun t => t.id)

def wipeLibrary (db : DB) (lib : LibraryRow) : DB :=
  { db with
    playlist_tracks :=
      db.playlist_tracks.filter (fun m => !((libTrackIds db lib).contains m.track_id)),
    tracks := db.tracks.filter (fun t => !(t.library_id == lib.id)) }

/-- The extraction-and-insert loop of db.rs lines 271-293.  For each path:
`File::new` / `tag()` / `audioproperties()` failing (`extract path = none`,
the NotMedia case) silently skips the path; otherwise the prepared INSERT is
executed on the plain connection - each row is committed individually, there
is no enclosing transaction - and a failing execute (`insertFail path`)
propagates `Err` immediately via `?`, so `res` is not returned and the rows
already inserted stay committed. -/
def insertPhase (lib : LibraryRow) (extract : String → Option Extracted)
    (insertFail : String → Bool) (res : List String) :
    DB → List String → DB × ScanOutcome
  | db, [] => (db, ScanOutcome.ok res)
  | db, p :: rest =>
    match extract p with
    | none => insertPhase lib extract insertFail res db rest
    | some m =>
      if insertFail p then (db, ScanOutcome.sqliteErr)
      else
        insertPhase lib extract insertFail res
          { db with
            tracks := db.tracks ++ [mkTrack db.next_track_id lib.id p m],
            next_track_id := db.next_track_id + 1 }
          rest

/-- The same insert loop under the assumption that no INSERT fails: the pure
state transformer the loop computes when every execute succeeds. -/
def applyInserts (lib : LibraryRow) (extract : String → Option Extracted) :
    DB → List String → DB
  | db, [] => db
  | db, p :: rest =>
    match extract p with
    | none => applyInserts lib extract db rest
    | some m =>
      applyInserts lib extract
        { db with
          tracks := db.tracks ++ [mkTrack db.next_track_id lib.id p m],
          next_track_id := db.next_track_id + 1 }
        rest

/-- The list of rows the insert loop appends to the `track` table when no
INSERT fails, with rowids assigned from `startId`. -/
def insertedTracks (lib : LibraryRow) (extract : String → Option Extracted)
    (startId : Nat) : List String → List TrackRow
  | [] => []
  | p :: rest =>
    match extract p with
    | none => insertedTracks lib extract startId rest
    | some m => mkTrack startId lib.id p m :: insertedTracks lib extract (startId + 1) rest

/-- Source `Database::scan_library` (db.rs lines 178-296), over one library.

Order of effects, exactly as in the source:
  1. If `full_rescan`, the wipe transaction (lines 181-199) commits first.
  2. The walk collects paths (lines 204-217); a walkdir error on ANY entry
     propagates as `WalkDirError` (line 206 applies `?`), and a
     `canonicalize()` failure panics (line 211 applies `.unwrap()`).
  3. If `full_rescan` is false, the incremental transaction (lines 224-260)
     creates the temporary `scan_results` table and fills it, and then
     `remove_missing_tracks` (line 239, defined at lines 340-369) prepares a
     statement whose SQL text ends in `WHERE scan_results.path IS NULL);` -
     the unbalanced closing parenthesis is a syntax error, so the prepare at
     line 345 fails, the `?` propagates `DatabaseError::SqliteError`, and the
     dropped transaction rolls back, leaving the store unchanged.  (The later
     duplicate-filter statement of lines 245-250 is likewise malformed: its
     text ends in `WHERE track.path IS NULL:` with a stray colon.)  Hence the
     incremental branch always returns the sqlite error with no mutation.
  4. The extraction-and-insert loop runs (only ever reached in full-rescan
     mode) and `Ok(res)` is returned, where `res` is still the empty vector
     of line 220 because `remove_missing_tracks` is the only code that pushes
     into it.
-/
def scan_library (db : DB) (library : LibraryRow) (full_rescan : Bool)
    (entries : List Entry) (extract : String → Option Extracted)
    (insertFail : String → Bool) : DB × ScanOutcome :=
  let db0 := if full_rescan then wipeLibrary db library else db
  match collectPaths entries with
  | WalkOutcome.walkErr => (db0, ScanOutcome.walkErr)
  | WalkOutcome.panicked => (db0, ScanOutcome.panicked)
  | WalkOutcome.ok new_tracks =>
    if full_rescan then
      insertPhase library extract insertFail [] db0 new_tracks
    else
      (db0, ScanOutcome.sqliteErr)

/-- Sample extracted metadata used by several concrete scan scenarios. -/
def sampleMeta : Extracted where
  title := some "t"
  artist := none
  album := none
  comment := none
  genre := none
  year := none
  track := none
  length := 1
  bitrate := 2
  samplerate := 3

/-- Library fixture for the incremental deletion-correctness scenario. -/
def c1lib : LibraryRow := { id := 1, path := "/L", name := "L" }

/-- Store fixture for the deletion-correctness scenario: tracks stored at
paths x, y and z of the scanned library. -/
def c1db : DB where
  libraries := [c1lib]
  tracks :=
    [ mkTrack 1 1 "/L/x" sampleMeta,
      mkTrack 2 1 "/L/y" sampleMeta,
      mkTrack 3 1 "/L/z" sampleMeta ]
  playlist_tracks := []
  next_track_id := 4

/-- Walk fixture for the deletion-correctness scenario: the walk yields only
the path y. -/
def c1entries : List Entry := [Entry.ok true (CanonOutcome.ok "/L/y")]

/-- CLAIM C1 (code bug): on the spec's own deletion-correctness scenario -
stored paths x, y, z and a walk yielding only y - the incremental scan does
not remove x and z and return them: it returns the sqlite error caused by the
malformed statement prepared inside `remove_missing_tracks` (db.rs line 353
ends in an unbalanced closing parenthesis), and the store is unchanged. -/
theorem incremental_scan_always_fails_deletion_scenario :
    scan_library c1db c1lib false c1entries (fun _ => none) (fun _ => false)
      = (c1db, ScanOutcome.sqliteErr) ∧
    c1db.tracks.map (fun t => t.path) = ["/L/x", "/L/y", "/L/z"] := by
  constructor
  · rfl
  · rfl

/-- Library fixture for the incremental idempotence scenario. -/
def c7lib : LibraryRow := { id := 2, path := "/M", name := "M" }

/-- Store fixture for the idempotence scenario: a catalog holding one track
of the scanned library whose file is still on disk. -/
def c7db : DB where
  libraries := [c7lib]
  tracks := [mkTrack 1 2 "/M/a" sampleMeta]
  playlist_tracks := []
  next_track_id := 2

/-- Walk fixture for the idempotence scenario: the filesystem still holds
exactly the stored file, in both runs. -/
def c7entries : List Entry := [Entry.ok true (CanonOutcome.ok "/M/a")]

/-- CLAIM C7 (code bug): running the incremental scan twice with no
filesystem change does not produce an empty removed-path list on the second
run - both runs fail with the sqlite error from the malformed SQL of
`remove_missing_tracks`, returning no list at all (the store is unchanged,
so the second run receives the same state and fails identically). -/
theorem incremental_scan_twice_never_returns_empty_list :
    scan_library c7db c7lib false c7entries (fun _ => some sampleMeta) (fun _ => false)
      = (c7db, ScanOutcome.sqliteErr) ∧
    scan_library
        (scan_library c7db c7lib false c7entries (fun _ => some sampleMeta) (fun _ => false)).1
        c7lib false c7entries (fun _ => some sampleMeta) (fun _ => false)
      = (c7db, ScanOutcome.sqliteErr) ∧
    ∀ removed,
      (scan_library
        (scan_library c7db c7lib false c7entries (fun _ => some sampleMeta) (fun _ => false)).1
        c7lib false c7entries (fun _ => some sampleMeta) (fun _ => false)).2
        ≠ ScanOutcome.ok removed := by
  refine ⟨rfl, rfl, ?_⟩
  intro removed h
  simp [scan_library, collectPaths, collectPathsAux] at h

/-- Library fixture for the cross-library path-matching scenario: the
library being scanned. -/
def c10lib : LibraryRow := { id := 4, path := "/N", name := "N" }

/-- Store fixture for the cross-library scenario: a different library (id 3)
holds a track at a path that the scan of library 4 walks, and library 4
holds a track at a path the walk no longer yields. -/
def c10db : DB where
  libraries := [{ id := 3, path := "/S", name := "S" }, c10lib]
  tracks :=
    [ mkTrack 1 3 "/shared/p" sampleMeta,
      mkTrack 2 4 "/N/gone" sampleMeta ]
  playlist_tracks := []
  next_track_id := 3

/-- Walk fixture for the cross-library scenario. -/
def c10entries : List Entry := [Entry.ok true (CanonOutcome.ok "/shared/p")]

/-- CLAIM C10 (code bug): the path-keyed matching described by the claim
never runs.  The statements that would implement it - the missing-track
query of db.rs lines 345-354 (text ending in an unbalanced parenthesis) and
the duplicate-filter query of lines 245-250 (text ending in a stray colon) -
are malformed SQL and fail to prepare, so the incremental scan returns the
sqlite error with the store unchanged: neither the cross-library deletion
nor the cross-library candidate exclusion is performed. -/
theorem incremental_scan_never_matches_paths :
    scan_library c10db c10lib false c10entries (fun _ => some sampleMeta) (fun _ => false)
      = (c10db, ScanOutcome.sqliteErr) ∧
    c10db.tracks.map (fun t => (t.library_id, t.path))
      = [(3, "/shared/p"), (4, "/N/gone")] := by
  constructor
  · rfl
  · rfl

/-- Library fixture for the insert-failure scenario. -/
def c3lib : LibraryRow := { id := 5, path := "/P", name := "P" }

/-- Store fixture for the insert-failure scenario: an empty catalog with one
library. -/
def c3db : DB where
  libraries := [c3lib]
  tracks := []
  playlist_tracks := []
  next_track_id := 1

/-- Walk fixture for the insert-failure scenario: two media files. -/
def c3entries : List Entry :=
  [Entry.ok true (CanonOutcome.ok "/P/a"), Entry.ok true (CanonOutcome.ok "/P/b")]

/-- Fault oracle for the insert-failure scenario: the INSERT for path /P/b
fails (a constraint violation or I/O error), the one for /P/a succeeds. -/
def c3fail : String → Bool := fun p => p == "/P/b"

/-- CLAIM C3 counterexample: a full rescan whose second INSERT fails leaves
the first inserted row committed while reporting the failure - the
insertions are not applied as one rolled-back transaction, refuting the
claim at this concrete input. -/
theorem insert_failure_leaves_partial_insert_state :
    (scan_library c3db c3lib true c3entries (fun _ => some sampleMeta) c3fail).2
      = ScanOutcome.sqliteErr ∧
    ((scan_library c3db c3lib true c3entries (fun _ => some sampleMeta) c3fail).1.tracks.map
        (fun t => t.path))
      = ["/P/a"] := by
  constructor
  · rfl
  · rfl

/-- CLAIM C9: `Library::path()` returns `none` exactly when the stored path
string is the literal "NONE", and `some` of the stored string otherwise; so a
library whose real root string is "NONE" is indistinguishable from the
sentinel at this interface. -/
theorem library_path_none_sentinel :
    ∀ (l : LibraryRow) (s : String),
      (Library.path l = none ↔ l.path = "NONE") ∧
      (Library.path l = some s ↔ (s = l.path ∧ l.path ≠ "NONE")) := by
  intro l s
  unfold Library.path
  by_cases h : l.path = "NONE"
  · simp [h]
  · simp only [h, if_false]
    refine ⟨by simp, ?_⟩
    constructor
    · intro hs
      exact ⟨(Option.some_inj.mp hs).symm, h⟩
    · intro hs
      exact congrArg some hs.1.symm

/-!
Claim C2: playlist membership integrity across scans.
-/

/-- A store with no dangling playlist membership: every membership row
references the id of an existing track row. -/
abbrev noDangling (db : DB) : Prop :=
  ∀ m ∈ db.playlist_tracks, ∃ t ∈ db.tracks, t.id = m.track_id

theorem wipeLibrary_noDangling (db : DB) (lib : LibraryRow) (h : noDangling db) :
    noDangling (wipeLibrary db lib) := by
  intro m hm
  simp only [wipeLibrary, List.mem_filter] at hm
  obtain ⟨hmem, hcond⟩ := hm
  obtain ⟨t, ht, hid⟩ := h m hmem
  refine ⟨t, ?_, hid⟩
  simp only [wipeLibrary, List.mem_filter]
  refine ⟨ht, ?_⟩
  rw [Bool.not_eq_true'] at hcond ⊢
  by_contra hne
  rw [Bool.not_eq_false, beq_iff_eq] at hne
  have htid : t.id ∈ libTrackIds db lib := by
    simp only [libTrackIds, List.mem_map]
    exact ⟨t, List.mem_filter.mpr ⟨ht, by simp [hne]⟩, rfl⟩
  rw [hid] at htid
  simp [htid] at hcond

theorem noDangling_append_tracks (db : DB) (l : List TrackRow) (n : Nat)
    (h : noDangling db) :
    noDangling { db with tracks := db.tracks ++ l, next_track_id := n } := by
  intro m hm
  obtain ⟨t, ht, hid⟩ := h m hm
  exact ⟨t, List.mem_append_left _ ht, hid⟩

theorem insertPhase_noDangling (lib : LibraryRow) (extract : String → Option Extracted)
    (f : String → Bool) (res : List String) :
    ∀ (paths : List String) (db : DB), noDangling db →
      noDangling (insertPhase lib extract f res db paths).1 := by
  intro paths
  induction paths with
  | nil => intro db h; exact h
  | cons p rest ih =>
    intro db h
    simp only [insertPhase]
    cases hx : extract p with
    | none => exact ih db h
    | some m =>
      cases hf : f p with
      | true => exact h
      | false =>
        simp only [Bool.false_eq_true, if_false]
        exact ih _ (noDangling_append_tracks db _ _ h)

/-- CLAIM C2: every scan, in either mode and under any extraction and fault
oracles, preserves the invariant that no playlist membership row references
a non-existent track id.  In full-rescan mode the wipe removes the
memberships of the deleted tracks in the same atomic step as the tracks; in
incremental mode the scan never deletes a track (its transaction fails and
rolls back); the insert loop only adds tracks. -/
theorem scan_preserves_membership_integrity (db : DB) (lib : LibraryRow)
    (full_rescan : Bool) (entries : List Entry)
    (extract : String → Option Extracted) (insertFail : String → Bool)
    (h : noDangling db) :
    noDangling (scan_library db lib full_rescan entries extract insertFail).1 := by
  cases full_rescan with
  | false =>
    cases hw : collectPaths entries <;> simp [scan_library, hw] <;> exact h
  | true =>
    cases hw : collectPaths entries with
    | walkErr => simpa [scan_library, hw] using wipeLibrary_noDangling db lib h
    | panicked => simpa [scan_library, hw] using wipeLibrary_noDangling db lib h
    | ok new_tracks =>
      simp only [scan_library, hw, if_true]
      exact insertPhase_noDangling lib extract insertFail [] new_tracks
        (wipeLibrary db lib) (wipeLibrary_noDangling db lib h)

/-- Library fixture for the membership-integrity scenario. -/
def c2lib : LibraryRow := { id := 6, path := "/Q", name := "Q" }

/-- Store fixture for the membership-integrity scenario: the scanned library
holds track 10 (with a playlist membership) and another library holds track
11 (also with a membership). -/
def c2db : DB where
  libraries := [c2lib, { id := 7, path := "/R", name := "R" }]
  tracks := [mkTrack 10 6 "/Q/a" sampleMeta, mkTrack 11 7 "/R/b" sampleMeta]
  playlist_tracks := [{ playlist_id := 1, track_id := 10 }, { playlist_id := 1, track_id := 11 }]
  next_track_id := 12

/-- Witness for claim C2: the integrity theorem applied to a concrete store
whose full rescan deletes a track that has a playlist membership. -/
theorem scan_preserves_membership_integrity_witness :
    noDangling c2db ∧
    noDangling (scan_library c2db c2lib true [] (fun _ => none) (fun _ => false)).1 :=
  ⟨by decide, scan_preserves_membership_integrity c2db c2lib true [] (fun _ => none)
    (fun _ => false) (by decide)⟩

/-!
Claim C3: transaction granularity of the store mutations.
-/

/-- Behaviour of the INSERT loop under faults: either every execute for an
extractable path succeeds and the loop commits all rows and returns the
removed-path list, or the loop stops at the first extractable path whose
execute fails, having committed exactly the rows of the preceding paths, and
reports the error. -/
theorem insertPhase_prefix (lib : LibraryRow) (extract : String → Option Extracted)
    (f : String → Bool) (res : List String) :
    ∀ (paths : List String) (db : DB),
      insertPhase lib extract f res db paths
          = (applyInserts lib extract db paths, ScanOutcome.ok res) ∨
      ∃ pre p suf, paths = pre ++ p :: suf ∧ (extract p).isSome ∧ f p = true ∧
        (∀ q ∈ pre, (extract q).isSome → f q = false) ∧
        insertPhase lib extract f res db paths
          = (applyInserts lib extract db pre, ScanOutcome.sqliteErr) := by
  intro paths
  induction paths with
  | nil => intro db; left; rfl
  | cons p rest ih =>
    intro db
    cases hx : extract p with
    | none =>
      rcases ih db with h | ⟨pre, q, suf, heq, hq, hfq, hpre, hrun⟩
      · left; simp [insertPhase, applyInserts, hx, h]
      · right
        refine ⟨p :: pre, q, suf, by simp [heq], hq, hfq, ?_, ?_⟩
        · intro r hr hrs
          rcases List.mem_cons.mp hr with rfl | hr
          · simp [hx] at hrs
          · exact hpre r hr hrs
        · simp [insertPhase, applyInserts, hx, hrun]
    | some m =>
      cases hf : f p with
      | true =>
        right
        refine ⟨[], p, rest, rfl, by simp [hx], hf, by simp, ?_⟩
        simp [insertPhase, applyInserts, hx, hf]
      | false =>
        rcases ih { db with
            tracks := db.tracks ++ [mkTrack db.next_track_id lib.id p m],
            next_track_id := db.next_track_id + 1 } with h | ⟨pre, q, suf, heq, hq, hfq, hpre, hrun⟩
        · left; simp [insertPhase, applyInserts, hx, hf, h]
        · right
          refine ⟨p :: pre, q, suf, by simp [heq], hq, hfq, ?_, ?_⟩
          · intro r hr hrs
            rcases List.mem_cons.mp hr with rfl | hr
            · exact hf
            · exact hpre r hr hrs
          · simp [insertPhase, applyInserts, hx, hf, hrun]

/-- CLAIM C3 as amended: the full-rescan deletion is committed as one
transaction (the wipe is applied in full in every outcome below); the
insertions are NOT one transaction - each row commits individually, so a
storage failure during insertion surfaces as a failed scan with exactly the
rows inserted before the failing path still committed (partial but
reported, never silent); and an incremental scan commits no mutation at all
(its transaction fails and rolls back, the error surfacing to the caller). -/
theorem scan_commit_granularity (db : DB) (lib : LibraryRow) (entries : List Entry)
    (extract : String → Option Extracted) (insertFail : String → Bool)
    (W : List String) (hW : collectPaths entries = WalkOutcome.ok W) :
    (scan_library db lib true entries extract insertFail
        = (applyInserts lib extract (wipeLibrary db lib) W, ScanOutcome.ok []) ∨
      ∃ pre p suf, W = pre ++ p :: suf ∧ (extract p).isSome ∧ insertFail p = true ∧
        (∀ q ∈ pre, (extract q).isSome → insertFail q = false) ∧
        scan_library db lib true entries extract insertFail
          = (applyInserts lib extract (wipeLibrary db lib) pre, ScanOutcome.sqliteErr)) ∧
    (scan_library db lib false entries extract insertFail).1 = db ∧
    (∀ removed, (scan_library db lib false entries extract insertFail).2
        ≠ ScanOutcome.ok removed) := by
  have hrun : scan_library db lib true entries extract insertFail
      = insertPhase lib extract insertFail [] (wipeLibrary db lib) W := by
    simp [scan_library, hW]
  refine ⟨?_, by simp [scan_library, hW], by simp [scan_library, hW]⟩
  rw [hrun]
  exact insertPhase_prefix lib extract insertFail [] W (wipeLibrary db lib)

/-- Library fixture for the C3 amended-claim witness. -/
def w3lib : LibraryRow := { id := 9, path := "/W3", name := "W3" }

/-- Store fixture for the C3 amended-claim witness. -/
def w3db : DB where
  libraries := [w3lib]
  tracks := []
  playlist_tracks := []
  next_track_id := 1

/-- Witness for the amended claim C3: the granularity theorem applied to a
concrete scan with an empty walk. -/
theorem scan_commit_granularity_witness :
    collectPaths [] = WalkOutcome.ok [] ∧
    ((scan_library w3db w3lib true [] (fun _ => none) (fun _ => false)
        = (applyInserts w3lib (fun _ => none) (wipeLibrary w3db w3lib) [], ScanOutcome.ok []) ∨
      ∃ pre p suf, ([] : List String) = pre ++ p :: suf ∧
        (((fun _ => none : String → Option Extracted)) p).isSome ∧
        ((fun _ => false : String → Bool) p) = true ∧
        (∀ q ∈ pre, (((fun _ => none : String → Option Extracted)) q).isSome →
          ((fun _ => false : String → Bool) q) = false) ∧
        scan_library w3db w3lib true [] (fun _ => none) (fun _ => false)
          = (applyInserts w3lib (fun _ => none) (wipeLibrary w3db w3lib) pre,
              ScanOutcome.sqliteErr)) ∧
    (scan_library w3db w3lib false [] (fun _ => none) (fun _ => false)).1 = w3db ∧
    (∀ removed, (scan_library w3db w3lib false [] (fun _ => none) (fun _ => false)).2
        ≠ ScanOutcome.ok removed)) :=
  ⟨rfl, scan_commit_granularity w3db w3lib [] (fun _ => none) (fun _ => false) [] rfl⟩

/-!
Claim C4: error handling of the filesystem walk.
-/

theorem collectPathsAux_ok (entries : List Entry) :
    ∀ acc : List String,
      (∀ b, Entry.err b ∉ entries) → Entry.ok true CanonOutcome.ioErr ∉ entries →
      ∃ l, collectPathsAux acc entries = WalkOutcome.ok l ∧
        ∀ s, s ∈ l ↔ s ∈ acc ∨ Entry.ok true (CanonOutcome.ok s) ∈ entries := by
  induction entries with
  | nil => intro acc _ _; exact ⟨acc, rfl, by simp⟩
  | cons e rest ih =>
    intro acc herr hio
    have herr2 : ∀ b, Entry.err b ∉ rest :=
      fun b hb => herr b (List.mem_cons_of_mem _ hb)
    have hio2 : Entry.ok true CanonOutcome.ioErr ∉ rest :=
      fun hb => hio (List.mem_cons_of_mem _ hb)
    cases e with
    | err b => exact absurd (List.mem_cons_self _ _) (herr b)
    | ok isFile canon =>
      cases isFile with
      | false =>
        obtain ⟨l, hl, hmem⟩ := ih acc herr2 hio2
        refine ⟨l, by simpa [collectPathsAux] using hl, ?_⟩
        intro s
        rw [hmem s]
        simp [List.mem_cons]
      | true =>
        cases canon with
        | ioErr => exact absurd (List.mem_cons_self _ _) hio
        | notUtf8 =>
          obtain ⟨l, hl, hmem⟩ := ih acc herr2 hio2
          refine ⟨l, by simpa [collectPathsAux] using hl, ?_⟩
          intro s
          rw [hmem s]
          simp [List.mem_cons]
        | ok s0 =>
          by_cases hc : s0 ∈ acc
          · obtain ⟨l, hl, hmem⟩ := ih acc herr2 hio2
            refine ⟨l, by simp [collectPathsAux, hc, hl], ?_⟩
            intro s
            rw [hmem s]
            constructor
            · rintro (h | h)
              · exact Or.inl h
              · exact Or.inr (List.mem_cons_of_mem _ h)
            · rintro (h | h)
              · exact Or.inl h
              · rcases List.mem_cons.mp h with heq | htail
                · injection heq with h1 h2
                  injection h2 with h3
                  subst h3
                  exact Or.inl hc
                · exact Or.inr htail
          · obtain ⟨l, hl, hmem⟩ := ih (acc ++ [s0]) herr2 hio2
            refine ⟨l, by simp [collectPathsAux, hc, hl], ?_⟩
            intro s
            rw [hmem s]
            constructor
            · rintro (h | h)
              · rcases List.mem_append.mp h with h2 | h2
                · exact Or.inl h2
                · have h3 : s = s0 := List.mem_singleton.mp h2
                  subst h3
                  exact Or.inr (List.mem_cons_self _ _)
              · exact Or.inr (List.mem_cons_of_mem _ h)
            · rintro (h | h)
              · exact Or.inl (List.mem_append_left _ h)
              · rcases List.mem_cons.mp h with heq | htail
                · injection heq with h1 h2
                  injection h2 with h3
                  subst h3
                  exact Or.inl (List.mem_append_right _ (List.mem_singleton_self _))
                · exact Or.inr htail

theorem collectPathsAux_err (entries : List Entry) :
    ∀ (acc : List String) (b : Bool), Entry.err b ∈ entries →
      ∀ l, collectPathsAux acc entries ≠ WalkOutcome.ok l := by
  induction entries with
  | nil => intro acc b hb; cases hb
  | cons e rest ih =>
    intro acc b hb l
    cases e with
    | err c => simp [collectPathsAux]
    | ok isFile canon =>
      have hb2 : Entry.err b ∈ rest := by
        rcases List.mem_cons.mp hb with h | h
        · exact Entry.noConfusion h
        · exact h
      cases isFile with
      | false => simpa [collectPathsAux] using ih acc b hb2 l
      | true =>
        cases canon with
        | ioErr => simp [collectPathsAux]
        | notUtf8 => simpa [collectPathsAux] using ih acc b hb2 l
        | ok s0 =>
          by_cases hc : s0 ∈ acc
          · simpa [collectPathsAux, hc] using ih acc b hb2 l
          · simpa [collectPathsAux, hc] using ih (acc ++ [s0]) b hb2 l

/-- CLAIM C4 as amended: when the walk yields no error entry and no entry
whose canonicalization fails, the collected set is exactly the canonical
UTF-8 file paths (non-files and non-UTF-8 paths are silently skipped, and
duplicates are removed); but a walkdir error on ANY entry - root or not, the
code never distinguishes - makes the whole walk fail, and the scan then
surfaces a filesystem-class error (`WalkDirError`) or aborts on the panic of
`canonicalize().unwrap()`; no single-entry skip happens for such entries. -/
theorem walk_error_handling :
    (∀ entries : List Entry,
      (∀ b, Entry.err b ∉ entries) → Entry.ok true CanonOutcome.ioErr ∉ entries →
      ∃ l, collectPaths entries = WalkOutcome.ok l ∧
        ∀ s, s ∈ l ↔ Entry.ok true (CanonOutcome.ok s) ∈ entries) ∧
    (∀ (entries : List Entry) (b : Bool), Entry.err b ∈ entries →
      ∀ l, collectPaths entries ≠ WalkOutcome.ok l) ∧
    (∀ (db : DB) (lib : LibraryRow) (full_rescan : Bool) (entries : List Entry)
        (extract : String → Option Extracted) (insertFail : String → Bool) (b : Bool),
      Entry.err b ∈ entries →
      (scan_library db lib full_rescan entries extract insertFail).2 = ScanOutcome.walkErr ∨
      (scan_library db lib full_rescan entries extract insertFail).2 = ScanOutcome.panicked) := by
  refine ⟨?_, ?_, ?_⟩
  · intro entries herr hio
    obtain ⟨l, hl, hmem⟩ := collectPathsAux_ok entries [] herr hio
    exact ⟨l, hl, fun s => by rw [hmem s]; simp⟩
  · intro entries b hb l
    exact collectPathsAux_err entries [] b hb l
  · intro db lib full_rescan entries extract insertFail b hb
    cases hw : collectPaths entries with
    | ok l => exact absurd hw (collectPathsAux_err entries [] b hb l)
    | walkErr => left; cases full_rescan <;> simp [scan_library, hw]
    | panicked => right; cases full_rescan <;> simp [scan_library, hw]

/-- CLAIM C4 counterexample: a walkdir error on a non-root entry (for
example a broken symbolic link encountered after a good file) does not cause
that single entry to be skipped - it fails the whole walk, which the claim
says happens only for errors reading the root. -/
theorem entry_error_fails_whole_walk :
    collectPaths [Entry.ok true (CanonOutcome.ok "/E/good"), Entry.err false]
      = WalkOutcome.walkErr ∧
    collectPaths [Entry.ok true (CanonOutcome.ok "/E/good"), Entry.err false]
      ≠ WalkOutcome.ok ["/E/good"] := by
  exact ⟨rfl, by decide⟩

/-- Walk fixture for the C4 witness: a good file, a non-UTF-8 path and a
directory entry. -/
def w4entries : List Entry :=
  [Entry.ok true (CanonOutcome.ok "/W4/f"), Entry.ok true CanonOutcome.notUtf8,
   Entry.ok false (CanonOutcome.ok "/W4/dir")]

/-- Witness for the amended claim C4: the error-handling theorem applied to
a concrete error-free walk and to a concrete walk holding an error entry. -/
theorem walk_error_handling_witness :
    ((∀ b, Entry.err b ∉ w4entries) ∧ Entry.ok true CanonOutcome.ioErr ∉ w4entries ∧
      ∃ l, collectPaths w4entries = WalkOutcome.ok l ∧
        ∀ s, s ∈ l ↔ Entry.ok true (CanonOutcome.ok s) ∈ w4entries) ∧
    (Entry.err true ∈ [Entry.err true] ∧
      ∀ l, collectPaths [Entry.err true] ≠ WalkOutcome.ok l) :=
  ⟨⟨by decide, by decide, walk_error_handling.1 w4entries (by decide) (by decide)⟩,
   ⟨by decide, walk_error_handling.2.1 [Entry.err true] true (by decide)⟩⟩

/-!
Claims C5 and C6: effect of a successful full rescan.
-/

/-- The extracted metadata a stored track row carries (inverse of `mkTrack`
up to the assigned id, library and path). -/
def metaOf (t : TrackRow) : Extracted where
  title := t.title
  artist := t.artist
  album := t.album
  comment := t.comment
  genre := t.genre
  year := t.year
  track := t.track
  length := t.length
  bitrate := t.bitrate
  samplerate := t.samplerate

/-- Number of walked paths the extractor accepts. -/
def numExtractable (extract : String → Option Extracted) (paths : List String) : Nat :=
  (paths.filter (fun p => (extract p).isSome)).length

theorem insertPhase_noFail (lib : LibraryRow) (extract : String → Option Extracted)
    (res : List String) :
    ∀ (paths : List String) (db : DB),
      insertPhase lib extract (fun _ => false) res db paths
        = (applyInserts lib extract db paths, ScanOutcome.ok res) := by
  intro paths
  induction paths with
  | nil => intro db; rfl
  | cons p rest ih =>
    intro db
    cases hx : extract p <;> simp [insertPhase, applyInserts, hx, ih]

theorem applyInserts_fields (lib : LibraryRow) (extract : String → Option Extracted) :
    ∀ (paths : List String) (db : DB),
      (applyInserts lib extract db paths).tracks
          = db.tracks ++ insertedTracks lib extract db.next_track_id paths ∧
      (applyInserts lib extract db paths).libraries = db.libraries ∧
      (applyInserts lib extract db paths).playlist_tracks = db.playlist_tracks ∧
      (applyInserts lib extract db paths).next_track_id
          = db.next_track_id + numExtractable extract paths := by
  intro paths
  induction paths with
  | nil =>
    intro db
    exact ⟨by simp [applyInserts, insertedTracks], rfl, rfl, by simp [applyInserts, numExtractable]⟩
  | cons p rest ih =>
    intro db
    cases hx : extract p with
    | none =>
      have := ih db
      simpa [applyInserts, insertedTracks, numExtractable, hx] using this
    | some m =>
      obtain ⟨h1, h2, h3, h4⟩ := ih { db with
        tracks := db.tracks ++ [mkTrack db.next_track_id lib.id p m],
        next_track_id := db.next_track_id + 1 }
      refine ⟨?_, ?_, ?_, ?_⟩
      · simp only [applyInserts, hx]
        rw [h1]
        simp [insertedTracks, hx]
      · simp only [applyInserts, hx]
        rw [h2]
      · simp only [applyInserts, hx]
        rw [h3]
      · simp only [applyInserts, hx]
        rw [h4]
        simp only [numExtractable, List.filter_cons, hx, Option.isSome_some, if_true]
        simp [List.length_cons]
        omega

theorem insertedTracks_map_path (lib : LibraryRow) (extract : String → Option Extracted) :
    ∀ (paths : List String) (s : Nat),
      (insertedTracks lib extract s paths).map (fun t => t.path)
        = paths.filter (fun p => (extract p).isSome) := by
  intro paths
  induction paths with
  | nil => intro s; rfl
  | cons p rest ih =>
    intro s
    cases hx : extract p <;> simp [insertedTracks, List.filter_cons, hx, ih, mkTrack]

theorem insertedTracks_mem (lib : LibraryRow) (extract : String → Option Extracted) :
    ∀ (paths : List String) (s : Nat) (t : TrackRow),
      t ∈ insertedTracks lib extract s paths →
      t.library_id = lib.id ∧ s ≤ t.id ∧ extract t.path = some (metaOf t) ∧
        t.rating = none := by
  intro paths
  induction paths with
  | nil => intro s t h; cases h
  | cons p rest ih =>
    intro s t h
    cases hx : extract p with
    | none =>
      rw [insertedTracks, hx] at h
      exact ih s t h
    | some m =>
      rw [insertedTracks, hx] at h
      rcases List.mem_cons.mp h with rfl | htail
      · refine ⟨rfl, Nat.le_refl _, ?_, rfl⟩
        show extract p = some (metaOf (mkTrack s lib.id p m))
        rw [hx]
        rfl
      · obtain ⟨ha, hb, hcc, hd⟩ := ih (s + 1) t htail
        exact ⟨ha, Nat.le_of_succ_le hb, hcc, hd⟩

/-- CLAIM C5: after a full rescan whose walk succeeds and whose inserts all
succeed, the scan returns the empty removed list, the `library` table is
untouched, the scanned library's tracks are exactly the rows built from the
successful extractions of the walked paths (in walk order, with fresh ids
and NULL rating), and no previously stored row of that library survives -
even when walked paths coincide with previously stored ones. -/
theorem full_rescan_replaces_library (db : DB) (lib : LibraryRow)
    (entries : List Entry) (extract : String → Option Extracted) (W : List String)
    (hW : collectPaths entries = WalkOutcome.ok W)
    (hids : ∀ t ∈ db.tracks, t.id < db.next_track_id) :
    ∀ (db2 : DB) (o : ScanOutcome),
      scan_library db lib true entries extract (fun _ => false) = (db2, o) →
      o = ScanOutcome.ok [] ∧
      db2.libraries = db.libraries ∧
      db2.tracks.filter (fun t => t.library_id == lib.id)
          = insertedTracks lib extract db.next_track_id W ∧
      (db2.tracks.filter (fun t => t.library_id == lib.id)).map (fun t => t.path)
          = W.filter (fun p => (extract p).isSome) ∧
      (∀ t ∈ db2.tracks, t.library_id = lib.id →
          extract t.path = some (metaOf t) ∧ t.rating = none) ∧
      (∀ t ∈ db.tracks, t.library_id = lib.id → t ∉ db2.tracks) := by
  intro db2 o heq
  have hrun : scan_library db lib true entries extract (fun _ => false)
      = (applyInserts lib extract (wipeLibrary db lib) W, ScanOutcome.ok []) := by
    simp [scan_library, hW, insertPhase_noFail]
  rw [hrun] at heq
  obtain ⟨hdb2, ho⟩ := Prod.mk.inj heq
  subst hdb2
  subst ho
  obtain ⟨htr, hlibs, hpt, hnext⟩ :=
    applyInserts_fields lib extract W (wipeLibrary db lib)
  have hAnext : (wipeLibrary db lib).next_track_id = db.next_track_id := rfl
  have hAlibs : (wipeLibrary db lib).libraries = db.libraries := rfl
  have hAtracks : (wipeLibrary db lib).tracks
      = db.tracks.filter (fun t => !(t.library_id == lib.id)) := rfl
  rw [hAnext] at htr
  -- the surviving rows of the wipe contain no row of the scanned library
  have hwipe_none :
      ((wipeLibrary db lib).tracks.filter (fun t => t.library_id == lib.id)) = [] := by
    rw [hAtracks]
    refine List.filter_eq_nil_iff.mpr ?_
    intro a ha
    have := (List.mem_filter.mp ha).2
    simp only [Bool.not_eq_true'] at this
    simp [this]
  -- every inserted row belongs to the scanned library
  have hins_all :
      (insertedTracks lib extract db.next_track_id W).filter
          (fun t => t.library_id == lib.id)
        = insertedTracks lib extract db.next_track_id W := by
    refine List.filter_eq_self.mpr ?_
    intro a ha
    have := (insertedTracks_mem lib extract W db.next_track_id a ha).1
    simp [this]
  have hfilter :
      (applyInserts lib extract (wipeLibrary db lib) W).tracks.filter
          (fun t => t.library_id == lib.id)
        = insertedTracks lib extract db.next_track_id W := by
    rw [htr, List.filter_append, hwipe_none, hins_all, List.nil_append]
  refine ⟨rfl, by rw [hlibs, hAlibs], hfilter, ?_, ?_, ?_⟩
  · rw [hfilter]
    exact insertedTracks_map_path lib extract W db.next_track_id
  · intro t ht hlib
    rw [htr] at ht
    rcases List.mem_append.mp ht with h | h
    · rw [hAtracks] at h
      have := (List.mem_filter.mp h).2
      simp only [Bool.not_eq_true'] at this
      rw [beq_eq_false_iff_ne] at this
      exact absurd hlib this
    · obtain ⟨_, _, hmeta, hrat⟩ := insertedTracks_mem lib extract W db.next_track_id t h
      exact ⟨hmeta, hrat⟩
  · intro t ht hlib ht2
    rw [htr] at ht2
    rcases List.mem_append.mp ht2 with h | h
    · rw [hAtracks] at h
      have := (List.mem_filter.mp h).2
      simp only [Bool.not_eq_true'] at this
      rw [beq_eq_false_iff_ne] at this
      exact absurd hlib this
    · have hge := (insertedTracks_mem lib extract W db.next_track_id t h).2.1
      have hlt := hids t ht
      omega

/-- Library fixture for the C5 witness. -/
def w5lib : LibraryRow := { id := 8, path := "/O", name := "O" }

/-- Store fixture for the C5 witness: one previously stored track of the
scanned library. -/
def w5db : DB where
  libraries := [w5lib]
  tracks := [mkTrack 1 8 "/O/old" sampleMeta]
  playlist_tracks := []
  next_track_id := 2

/-- Walk fixture for the C5 witness: the walk now yields a different file. -/
def w5entries : List Entry := [Entry.ok true (CanonOutcome.ok "/O/n1")]

/-- Extractor fixture for the C5 witness. -/
def w5extract : String → Option Extracted :=
  fun p => if p = "/O/n1" then some sampleMeta else none

/-- Witness for claim C5: the full-rescan theorem applied to a concrete
store and walk. -/
theorem full_rescan_replaces_library_witness :
    collectPaths w5entries = WalkOutcome.ok ["/O/n1"] ∧
    (∀ t ∈ w5db.tracks, t.id < w5db.next_track_id) ∧
    ((scan_library w5db w5lib true w5entries w5extract (fun _ => false)).2
        = ScanOutcome.ok [] ∧
      (scan_library w5db w5lib true w5entries w5extract
          (fun _ => false)).1.libraries = w5db.libraries ∧
      (scan_library w5db w5lib true w5entries w5extract
          (fun _ => false)).1.tracks.filter (fun t => t.library_id == w5lib.id)
        = insertedTracks w5lib w5extract w5db.next_track_id ["/O/n1"] ∧
      ((scan_library w5db w5lib true w5entries w5extract
          (fun _ => false)).1.tracks.filter (fun t => t.library_id == w5lib.id)).map
            (fun t => t.path)
        = (["/O/n1"].filter (fun p => (w5extract p).isSome)) ∧
      (∀ t ∈ (scan_library w5db w5lib true w5entries w5extract
          (fun _ => false)).1.tracks, t.library_id = w5lib.id →
          w5extract t.path = some (metaOf t) ∧ t.rating = none) ∧
      (∀ t ∈ w5db.tracks, t.library_id = w5lib.id →
          t ∉ (scan_library w5db w5lib true w5entries w5extract
            (fun _ => false)).1.tracks)) :=
  ⟨rfl, by decide,
    full_rescan_replaces_library w5db w5lib w5entries w5extract ["/O/n1"] rfl
      (by decide) _ _ rfl⟩

/-- CLAIM C6: a walked candidate path that the extractor rejects as not
readable media is silently excluded: provided the catalog holds no row at
that path (it was never added), the full-rescan scan succeeds, the path
appears nowhere in `dump_all_tracks` afterwards, and it is not reported in
the removed-path list.  (In incremental mode the scan fails before any
candidate is extracted, so no candidate exists there.) -/
theorem notmedia_silently_excluded (db : DB) (lib : LibraryRow)
    (entries : List Entry) (extract : String → Option Extracted)
    (W : List String) (p : String)
    (hW : collectPaths entries = WalkOutcome.ok W) (_hp : p ∈ W)
    (hnm : extract p = none)
    (hnot : ∀ t ∈ db.tracks, t.path ≠ p) :
    ∀ (db2 : DB) (o : ScanOutcome),
      scan_library db lib true entries extract (fun _ => false) = (db2, o) →
      o = ScanOutcome.ok [] ∧
      (∀ t ∈ dump_all_tracks db2, t.path ≠ p) ∧
      (∀ removed, o = ScanOutcome.ok removed → p ∉ removed) := by
  intro db2 o heq
  have hrun : scan_library db lib true entries extract (fun _ => false)
      = (applyInserts lib extract (wipeLibrary db lib) W, ScanOutcome.ok []) := by
    simp [scan_library, hW, insertPhase_noFail]
  rw [hrun] at heq
  obtain ⟨hdb2, ho⟩ := Prod.mk.inj heq
  subst hdb2
  subst ho
  obtain ⟨htr, _, _, _⟩ := applyInserts_fields lib extract W (wipeLibrary db lib)
  have hAtracks : (wipeLibrary db lib).tracks
      = db.tracks.filter (fun t => !(t.library_id == lib.id)) := rfl
  refine ⟨rfl, ?_, ?_⟩
  · intro t ht
    simp only [dump_all_tracks] at ht
    rw [htr] at ht
    rcases List.mem_append.mp ht with h | h
    · rw [hAtracks] at h
      exact hnot t (List.mem_filter.mp h).1
    · intro hpath
      have hmeta := (insertedTracks_mem lib extract W _ t h).2.2.1
      rw [hpath, hnm] at hmeta
      cases hmeta
  · intro removed hrem
    injection hrem with h2
    rw [← h2]
    exact List.not_mem_nil p

/-- Library fixture for the C6 witness. -/
def w6lib : LibraryRow := { id := 11, path := "/V", name := "V" }

/-- Store fixture for the C6 witness: an empty catalog. -/
def w6db : DB where
  libraries := [w6lib]
  tracks := []
  playlist_tracks := []
  next_track_id := 1

/-- Walk fixture for the C6 witness: one media file and one non-media file. -/
def w6entries : List Entry :=
  [Entry.ok true (CanonOutcome.ok "/V/media"), Entry.ok true (CanonOutcome.ok "/V/readme")]

/-- Extractor fixture for the C6 witness: the second walked file is not
readable media. -/
def w6extract : String → Option Extracted :=
  fun p => if p = "/V/media" then some sampleMeta else none

/-- Witness for claim C6: the NotMedia-exclusion theorem applied to a
concrete scan in which one walked path is not media. -/
theorem notmedia_silently_excluded_witness :
    collectPaths w6entries = WalkOutcome.ok ["/V/media", "/V/readme"] ∧
    "/V/readme" ∈ ["/V/media", "/V/readme"] ∧
    w6extract "/V/readme" = none ∧
    (∀ t ∈ w6db.tracks, t.path ≠ "/V/readme") ∧
    ((scan_library w6db w6lib true w6entries w6extract (fun _ => false)).2
        = ScanOutcome.ok [] ∧
      (∀ t ∈ dump_all_tracks
          (scan_library w6db w6lib true w6entries w6extract (fun _ => false)).1,
        t.path ≠ "/V/readme") ∧
      (∀ removed,
        (scan_library w6db w6lib true w6entries w6extract (fun _ => false)).2
          = ScanOutcome.ok removed → "/V/readme" ∉ removed)) :=
  ⟨rfl, by decide, by decide, by decide,
    notmedia_silently_excluded w6db w6lib w6entries w6extract
      ["/V/media", "/V/readme"] "/V/readme" rfl (by decide) (by decide) (by decide)
      _ _ rfl⟩
